import Mathlib

/-!
Verification of the lorawan-gateway repository (Go package `gateway`).

The definitions below are a shallow embedding of the repository's code:

* join handling (`parseJoinRequestPacket`, `validateMIC`, `GenerateJoinAccept`,
  `generateDevAddr`, `generateJoinNonce`, `generateKeys`, `handleJoin`) from
  the unnamed gateway source file;
* the readings store (`updateReadings`), config validation (`Config.Validate`,
  `validateOTAAAttributes`, `validateABPAttributes`), the packet poll loop
  (`receivePackets`) and the dispatcher (`handlePacket`) from
  `gateway/sensor.go`.

Bytes are modelled as `Nat` (conversions take `% 256` where Go converts).
Go byte slices are Lean lists; a Go slice expression `l[lo:hi]` that is out of
range panics, which is modelled by `Option` (`none` = panic).  Capacity of a
slice is taken to be its length (the Go spec guarantees `cap ≥ len`; `append`
may leave extra implementation-defined capacity, in which case an
out-of-length slice reads stale bytes instead of panicking — either way no
error value is produced).  External cryptographic primitives (TTN's
`ComputeJoinRequestMIC`, `ComputeLegacyJoinAcceptMIC`, `EncryptJoinAccept`,
`DeriveAppSKey`) are out of scope for the repository and are passed in as
oracle functions, exactly at the call sites where the Go code invokes them.
-/

namespace Gateway

/-- AES-128 keys (`types.AES128Key`) modelled as byte lists. -/
abbrev Key := List Nat

/-- Go slice expression `l[lo:hi]`: `none` models the out-of-range panic
(capacity taken as length, see the file comment). -/
def goSlice (l : List Nat) (lo hi : Nat) : Option (List Nat) :=
  if lo ≤ hi ∧ hi ≤ l.length then some ((l.drop lo).take (hi - lo)) else none

/-- reverseByteArray (unnamed gateway file, lines 242-249): a fresh array with
`reversed[i] = arr[len-1-i]`. -/
def reverseByteArray (arr : List Nat) : List Nat :=
  (List.range arr.length).map fun i => arr.getD (arr.length - 1 - i) 0

/-- Device (sensor.go, lines 47-57).  Go zero values: empty strings, 16 zero
bytes for the AES keys, nil byte slices for addr/devEui. -/
structure Device where
  name : String
  decoderPath : String
  nwkSKey : Key
  appSKey : Key
  AppKey : Key
  addr : List Nat
  devEui : List Nat
deriving DecidableEq

/-- The Go zero value `&Device{}` built at the start of the matching loop in
parseJoinRequestPacket (unnamed gateway file, line 100). -/
def emptyDevice : Device :=
  { name := "", decoderPath := "", nwkSKey := List.replicate 16 0,
    appSKey := List.replicate 16 0, AppKey := List.replicate 16 0,
    addr := [], devEui := [] }

/-- JoinRequest (unnamed gateway file, lines 27-32). -/
structure JoinRequest where
  joinEUI : List Nat
  devEUI : List Nat
  devNonce : List Nat
  mic : List Nat
deriving DecidableEq

/-- The error values produced by the join path. -/
inductive Err where
  | unknownDevice
  | invalidMIC
  | keyDerivationFailed
  | sendFailed
deriving DecidableEq

/-- Result of validateMIC (unnamed gateway file, lines 190-201): `panic` is the
slice panic of `payload[:19]` on a too-short payload, `invalidMIC` the
"invalid MIC" error, `valid` the nil error. -/
inductive MICResult where
  | panic
  | invalidMIC
  | valid
deriving DecidableEq

/-- validateMIC (unnamed gateway file, lines 190-201): compute the
join-request MIC over `payload[:19]` with the device AppKey (external
`crypto.ComputeJoinRequestMIC`, passed as the oracle `cm`) and compare it with
`payload[19:]` — note: the whole remaining suffix, not just four bytes. -/
def validateMIC (cm : Key → List Nat → List Nat) (appKey : Key)
    (payload : List Nat) : MICResult :=
  match goSlice payload 0 19 with
  | none => MICResult.panic
  | some p19 =>
      let mic := cm appKey p19
      if payload.drop 19 = mic then MICResult.valid else MICResult.invalidMIC

/-- Result of parseJoinRequestPacket. -/
inductive ParseResult where
  | panic
  | err (e : Err)
  | ok (jr : JoinRequest) (d : Device)
deriving DecidableEq

/-- The matching loop of parseJoinRequestPacket (unnamed gateway file, lines
100-110): fold over the registry starting from the zero Device, keeping the
last device whose (big-endian) devEui equals the byte-reversed wire devEUI. -/
def findDevice (devices : List Device) (devEUIBE : List Nat) : Device :=
  devices.foldl
    (fun matched device => if device.devEui = devEUIBE then device else matched)
    emptyDevice

/-- parseJoinRequestPacket (unnamed gateway file, lines 91-123): slice the
fixed-width fields out of the payload (no length check exists in the source —
a short payload panics), byte-reverse the wire devEUI, match it against the
registry, report an unknown device when the match is still the zero Device,
then validate the MIC. -/
def parseJoinRequestPacket (cm : Key → List Nat → List Nat)
    (payload : List Nat) (devices : List Device) : ParseResult :=
  match goSlice payload 1 9, goSlice payload 9 17,
        goSlice payload 17 19, goSlice payload 19 23 with
  | some joinEUI, some devEUI, some devNonce, some mic =>
      let devEUIBE := reverseByteArray devEUI
      let matched := findDevice devices devEUIBE
      if matched.name = "" then ParseResult.err Err.unknownDevice
      else
        match validateMIC cm matched.AppKey payload with
        | MICResult.panic => ParseResult.panic
        | MICResult.invalidMIC => ParseResult.err Err.invalidMIC
        | MICResult.valid =>
            ParseResult.ok ⟨joinEUI, devEUI, devNonce, mic⟩ matched
  | _, _, _, _ => ParseResult.panic

/-- network id (unnamed gateway file, line 42). -/
def netID : List Nat := [1, 2, 3]

/-- generateDevAddr (unnamed gateway file, lines 179-188).  The two random
draws are `rand.Intn(255)`, i.e. uniform over `[0,255)`, modelled as `Fin 255`
arguments; `byte(num)` is `% 256`. -/
def generateDevAddr (num1 num2 : Fin 255) : List Nat :=
  [1, 2, num1.val % 256, num2.val % 256]

/-- generateJoinNonce (unnamed gateway file, lines 230-239): three
`rand.Intn(255)` draws converted to bytes. -/
def generateJoinNonce (num1 num2 num3 : Fin 255) : List Nat :=
  [num1.val % 256, num2.val % 256, num3.val % 256]

/-- The external `cryptoservices ... DeriveAppSKey` collaborator, given the
AppKey, the big-endian devNonce, joinEUI, the generated join nonce, devEUI and
the network id; `none` models a derivation error. -/
abbrev DeriveOracle :=
  Key → List Nat → List Nat → List Nat → List Nat → List Nat → Option Key

/-- generateKeys (unnamed gateway file, lines 203-228): byte-reverse the
devNonce to big-endian and call the external key-derivation service. -/
def generateKeys (derive : DeriveOracle) (d : Device)
    (devNonce joinEUI jn devEUI networkID : List Nat) : Option Key :=
  derive d.AppKey (reverseByteArray devNonce) joinEUI jn devEUI networkID

/-- GenerateJoinAccept (unnamed gateway file, lines 128-177), straight-line as
in the source: generate the join nonce, overwrite the device address, build
the plaintext `0x20 | jnLE | netIDLE | dAddrLE | 0x00 | 0x01`, compute its MIC
with the AppKey (oracle `cm`, TTN's `ComputeLegacyJoinAcceptMIC`), drop the
MHDR, append the MIC, encrypt with the AppKey (oracle `enc`, TTN's
`EncryptJoinAccept`, whose error the source discards), prepend 0x20, then
derive the session key and on success commit it to the device.  The returned
pair is (result, device after the call) — the device is mutated through a
pointer in Go, so the address overwrite persists even when derivation fails. -/
def GenerateJoinAccept (cm enc : Key → List Nat → List Nat)
    (derive : DeriveOracle) (m1 m2 m3 n1 n2 : Fin 255)
    (jr : JoinRequest) (d : Device) : Except Err (List Nat) × Device :=
  let jn := generateJoinNonce m1 m2 m3
  let d2 : Device := { d with addr := generateDevAddr n1 n2 }
  let netIDLE := reverseByteArray netID
  let jnLE := reverseByteArray jn
  let dAddrLE := reverseByteArray d2.addr
  let payload := [0x20] ++ jnLE ++ netIDLE ++ dAddrLE ++ [0x00, 0x01]
  let resMIC := cm d2.AppKey payload
  let payload2 := payload.drop 1 ++ resMIC
  let encd := enc d2.AppKey payload2
  let ja := [0x20] ++ encd
  match generateKeys derive d2 jr.devNonce jr.joinEUI jn jr.devEUI netID with
  | none => (Except.error Err.keyDerivationFailed, d2)
  | some appsKey => (Except.ok ja, { d2 with appSKey := appsKey })

/-- The readings value type is Go's `interface\x7b\x7d`; the store maps device
names to Go maps, where a Go map value is `none` (a typed nil map) or an
association list. -/
abbrev GoMap (α : Type) := Option (List (String × α))

/-- lastReadings (sensor.go, line 147), an association-list model of the Go
map from device name to readings map. -/
abbrev Store (α : Type) := List (String × GoMap α)

/-- Go map read `m[k]` on an association list: `none` means the key is
absent. -/
def lookupA {β : Type} : List (String × β) → String → Option β
  | [], _ => none
  | (k, v) :: rest, key => if k = key then some v else lookupA rest key

/-- Go map write `m[k] = v` on an association list: replace in place, or
append when absent. -/
def setA {β : Type} : List (String × β) → String → β → List (String × β)
  | [], k, v => [(k, v)]
  | (k2, v2) :: rest, k, v =>
      if k2 = k then (k, v) :: rest else (k2, v2) :: setA rest k v

/-- The merge loop of updateReadings (sensor.go, lines 305-307): write every
key of the new readings into the existing map, overwriting on collision. -/
def mergeGo {α : Type} (readings new : List (String × α)) :
    List (String × α) :=
  new.foldl (fun acc kv => setA acc kv.1 kv.2) readings

/-- updateReadings (sensor.go, lines 292-310).  The Go type assertion
`lastReadings[name].(map[string]interface\x7b\x7d)` fails only when `name` is
absent (the stored values are always maps), in which case the new readings are
stored as-is.  When the stored map is a typed nil map the source allocates a
fresh map into the store but keeps iterating over the nil local `readings`:
writing any key into it panics (`none` result), and with nothing to write the
final assignment puts the nil map back. -/
def updateReadings {α : Type} (name : String) (newReadings : GoMap α)
    (store : Store α) : Option (Store α) :=
  match lookupA store name with
  | none => some (setA store name newReadings)
  | some (some readings) =>
      match newReadings with
      | none => some (setA store name (some readings))
      | some newList => some (setA store name (some (mergeGo readings newList)))
  | some none =>
      match newReadings with
      | none => some (setA store name none)
      | some [] => some (setA store name none)
      | some (_ :: _) => none

/-- The MHDR 0x40 branch of handlePacket (sensor.go, lines 278-284): the
decode error is only logged — there is no return statement — so
updateReadings runs with whatever parseDataUplink returned alongside the
error. -/
def handleDataUplink {α : Type} (name : String) (readings : GoMap α)
    (decodeErr : Option Err) (store : Store α) : Option (Store α) :=
  let _ := decodeErr
  updateReadings name readings store

/-- The gateway state the join path can observe or mutate: the device
registry (sensor.go, line 150) and the readings store (line 147). -/
structure GwState (α : Type) where
  devices : List Device
  lastReadings : Store α
deriving DecidableEq

/-- Mutation of a registry entry through its pointer: `handleJoin` holds a
`*Device` out of the name-keyed map, so the updated device replaces the entry
with the same name. -/
def updateDeviceList (devices : List Device) (name : String) (d2 : Device) :
    List Device :=
  devices.map fun x => if x.name = name then d2 else x

/-- Outcome of handleJoin, carrying the gateway state after the call. -/
inductive JoinOutcome (α : Type) where
  | panic
  | err (e : Err) (st : GwState α)
  | ok (st : GwState α) (frame : List Nat)
deriving DecidableEq

/-- handleJoin (unnamed gateway file, lines 44-86): parse the join request
(returning its error unchanged on failure), generate the join accept (the
device mutation persists through the registry pointer even when this step
fails), then send the frame on the radio after the RX2 wait — `sendOk` models
the C `send` return code. -/
def handleJoin {α : Type} (cm cja enc : Key → List Nat → List Nat)
    (derive : DeriveOracle) (m1 m2 m3 n1 n2 : Fin 255) (sendOk : Bool)
    (payload : List Nat) (st : GwState α) : JoinOutcome α :=
  match parseJoinRequestPacket cm payload st.devices with
  | ParseResult.panic => JoinOutcome.panic
  | ParseResult.err e => JoinOutcome.err e st
  | ParseResult.ok jr dev =>
      match GenerateJoinAccept cja enc derive m1 m2 m3 n1 n2 jr dev with
      | (res, dev2) =>
          let st2 : GwState α :=
            { st with devices := updateDeviceList st.devices dev.name dev2 }
          match res with
          | Except.error e => JoinOutcome.err e st2
          | Except.ok ja =>
              if sendOk then JoinOutcome.ok st2 ja
              else JoinOutcome.err Err.sendFailed st2

/-- DeviceConfig (sensor.go, lines 36-45): the raw, hex-encoded configuration
fields. -/
structure DeviceConfig where
  name : String
  joinType : String
  devEUI : String
  appSKey : String
  nwkSKey : String
  devAddr : String
  decoderPath : String
  appKey : String
deriving DecidableEq

/-- Config (sensor.go, lines 32-34). -/
structure Config where
  devices : List DeviceConfig
deriving DecidableEq

/-- The distinct config-validation rejections (each a
`resource.NewConfigValidationError`). -/
inductive ConfigErr where
  | decoderRequired
  | badJoinType
  | devEuiRequired
  | devEuiSize
  | appKeyRequired
  | appKeySize
  | appSKeyRequired
  | appSKeySize
  | nwkSKeyRequired
  | nwkSKeySize
  | devAddrRequired
  | devAddrSize
deriving DecidableEq

/-- validateOTAAAttributes (sensor.go, lines 89-107). -/
def validateOTAAAttributes (conf : DeviceConfig) : Option ConfigErr :=
  if conf.devEUI = "" then some ConfigErr.devEuiRequired
  else if conf.devEUI.length ≠ 16 then some ConfigErr.devEuiSize
  else if conf.appKey = "" then some ConfigErr.appKeyRequired
  else if conf.appKey.length ≠ 32 then some ConfigErr.appKeySize
  else none

/-- validateABPAttributes (sensor.go, lines 109-137). -/
def validateABPAttributes (conf : DeviceConfig) : Option ConfigErr :=
  if conf.appSKey = "" then some ConfigErr.appSKeyRequired
  else if conf.appSKey.length ≠ 32 then some ConfigErr.appSKeySize
  else if conf.nwkSKey = "" then some ConfigErr.nwkSKeyRequired
  else if conf.nwkSKey.length ≠ 32 then some ConfigErr.nwkSKeySize
  else if conf.devAddr = "" then some ConfigErr.devAddrRequired
  else if conf.devAddr.length ≠ 8 then some ConfigErr.devAddrSize
  else none

/-- Config.Validate (sensor.go, lines 69-87).  Every branch of the loop body
returns — the decoder-path check, then the join-type switch whose three cases
all return — so the loop never reaches a second iteration: only the head of
the device list is ever validated. -/
def Config.Validate : Config → Option ConfigErr
  | ⟨[]⟩ => none
  | ⟨d :: _⟩ =>
      if d.decoderPath = "" then some ConfigErr.decoderRequired
      else
        match d.joinType with
        | "ABP" => validateABPAttributes d
        | "OTAA" => validateOTAAAttributes d
        | "" => validateOTAAAttributes d
        | _ => some ConfigErr.badJoinType

/-- One delivered packet of the poll loop (receivePackets, sensor.go lines
243-255): a size-0 packet is skipped with no dispatch; otherwise one byte per
reported size byte is appended from the packet's 256-byte C payload array and
the result is handed to handlePacket.  A reported size beyond the C array
would panic the loop before any dispatch, so no payload is delivered then
either (`none` covers both the skip and that panic). -/
def deliveredPayload (size : Nat) (pl : Nat → Nat) : Option (List Nat) :=
  if size = 0 then none
  else if size ≤ 256 then some ((List.range size).map pl)
  else none

/-- The MHDR read `payload[0]` at the top of handlePacket (sensor.go, line
266); `none` is the index panic on an empty payload. -/
def mhdrOf (payload : List Nat) : Option Nat :=
  payload.head?

/-! ### Sample values used by concrete counterexamples and witnesses -/

/-- A constant MIC oracle returning four zero bytes. -/
def cmZero : Key → List Nat → List Nat := fun _ _ => [0, 0, 0, 0]

/-- A MIC oracle matching the tail of `pr23`. -/
def cmTrail : Key → List Nat → List Nat := fun _ _ => [19, 20, 21, 22]

/-- A MIC oracle that never matches a zero payload tail. -/
def cmBad : Key → List Nat → List Nat := fun _ _ => [1, 2, 3, 4]

/-- An identity encryption oracle. -/
def encId : Key → List Nat → List Nat := fun _ l => l

/-- A key-derivation oracle that always fails. -/
def deriveFail : DeriveOracle := fun _ _ _ _ _ _ => none

/-- A key-derivation oracle that always returns a fixed key. -/
def deriveConst : DeriveOracle := fun _ _ _ _ _ _ => some (List.replicate 16 9)

/-- An all-zero AES key. -/
def keyZ : Key := List.replicate 16 0

/-- A configured device whose big-endian devEui is the byte reversal of the
wire devEUI of `pr23`. -/
def devSample : Device :=
  { name := "dev0", decoderPath := "/d", nwkSKey := keyZ, appSKey := [5, 5],
    AppKey := [7, 7], addr := [9, 9, 9, 9],
    devEui := [16, 15, 14, 13, 12, 11, 10, 9] }

/-- A parsed join request with the fields of `pr23`. -/
def jrSample : JoinRequest :=
  ⟨[1, 2, 3, 4, 5, 6, 7, 8], [9, 10, 11, 12, 13, 14, 15, 16], [17, 18],
   [19, 20, 21, 22]⟩

/-- The 23-byte payload whose byte at index i is i. -/
def pr23 : List Nat := List.range 23

/-- A 24-byte all-zero payload. -/
def pz24 : List Nat := List.replicate 24 0

/-- A 23-byte all-zero payload. -/
def pz23 : List Nat := List.replicate 23 0

/-- An OTAA device configuration that passes validation. -/
def cfgOk : DeviceConfig :=
  { name := "a", joinType := "", devEUI := "0011223344556677", appSKey := "",
    nwkSKey := "", devAddr := "", decoderPath := "/d",
    appKey := "00112233445566778899aabbccddeeff" }

/-- A device configuration with an empty decoder path (invalid on its own). -/
def cfgBad : DeviceConfig :=
  { name := "b", joinType := "", devEUI := "", appSKey := "", nwkSKey := "",
    devAddr := "", decoderPath := "", appKey := "" }

/-! ### Helper lemmas -/

/-- An in-range Go slice yields the corresponding drop/take window. -/
theorem goSlice_sub (l : List Nat) (lo hi : Nat) (h1 : lo ≤ hi)
    (h2 : hi ≤ l.length) : goSlice l lo hi = some ((l.drop lo).take (hi - lo)) := by
  simp [goSlice, h1, h2]

/-- The matching fold keeps its accumulator when no device matches. -/
theorem foldl_find_no_match (devices : List Device) (e : List Nat) (acc : Device)
    (h : ∀ d ∈ devices, d.devEui ≠ e) :
    devices.foldl
      (fun matched device => if device.devEui = e then device else matched)
      acc = acc := by
  induction devices generalizing acc with
  | nil => rfl
  | cons d rest ih =>
      simp only [List.foldl_cons]
      rw [if_neg (h d (by simp))]
      exact ih acc fun x hx => h x (by simp [hx])

/-- With no matching devEui the registry scan returns the zero Device. -/
theorem findDevice_eq_empty (devices : List Device) (e : List Nat)
    (h : ∀ d ∈ devices, d.devEui ≠ e) : findDevice devices e = emptyDevice :=
  foldl_find_no_match devices e emptyDevice h

/-- For a payload of at least 23 bytes the four slices of
parseJoinRequestPacket are in range and the parse reduces to device matching
and MIC validation over the extracted windows. -/
theorem parse_reduces (cm : Key → List Nat → List Nat) (payload : List Nat)
    (devices : List Device) (hlen : 23 ≤ payload.length) :
    parseJoinRequestPacket cm payload devices =
      (if (findDevice devices (reverseByteArray ((payload.drop 9).take 8))).name = ""
       then ParseResult.err Err.unknownDevice
       else
        match validateMIC cm
            (findDevice devices (reverseByteArray ((payload.drop 9).take 8))).AppKey
            payload with
        | MICResult.panic => ParseResult.panic
        | MICResult.invalidMIC => ParseResult.err Err.invalidMIC
        | MICResult.valid =>
            ParseResult.ok
              ⟨(payload.drop 1).take 8, (payload.drop 9).take 8,
               (payload.drop 17).take 2, (payload.drop 19).take 4⟩
              (findDevice devices (reverseByteArray ((payload.drop 9).take 8)))) := by
  unfold parseJoinRequestPacket
  rw [goSlice_sub payload 1 9 (by omega) (by omega),
      goSlice_sub payload 9 17 (by omega) (by omega),
      goSlice_sub payload 17 19 (by omega) (by omega),
      goSlice_sub payload 19 23 (by omega) (by omega)]

/-- For a payload of at least 19 bytes, validateMIC succeeds exactly when the
whole suffix from byte 19 on equals the MIC computed over the first 19
bytes. -/
theorem validateMIC_valid_iff (cm : Key → List Nat → List Nat) (key : Key)
    (payload : List Nat) (hlen : 19 ≤ payload.length) :
    validateMIC cm key payload = MICResult.valid ↔
      payload.drop 19 = cm key (payload.take 19) := by
  unfold validateMIC
  rw [goSlice_sub payload 0 19 (by omega) (by omega)]
  simp only [List.drop_zero, Nat.sub_zero]
  by_cases hc : payload.drop 19 = cm key (payload.take 19) <;> simp [hc]

/-- Go map read after a write at the same key sees the written value. -/
theorem lookupA_setA_self {β : Type} (m : List (String × β)) (k : String)
    (v : β) : lookupA (setA m k v) k = some v := by
  induction m with
  | nil => simp [setA, lookupA]
  | cons kv rest ih =>
      obtain ⟨k2, v2⟩ := kv
      by_cases h : k2 = k
      · simp [setA, h, lookupA]
      · simp [setA, h, lookupA, ih]

/-- Go map read after a write at a different key is unchanged. -/
theorem lookupA_setA_ne {β : Type} (m : List (String × β)) (k k2 : String)
    (v : β) (h : k2 ≠ k) : lookupA (setA m k v) k2 = lookupA m k2 := by
  have hne : ¬k = k2 := fun hc => h hc.symm
  induction m with
  | nil => simp [setA, lookupA, hne]
  | cons kv rest ih =>
      obtain ⟨k3, v3⟩ := kv
      by_cases h3 : k3 = k
      · subst h3
        simp [setA, lookupA, hne]
      · simp [setA, h3, lookupA, ih]

/-! ### Claim theorems -/

/-- C1 (counterexample): a join transaction whose session-key derivation fails
does abort with KeyDerivationFailed, yet the device's devAddr is not as it was
before the transaction began — GenerateJoinAccept overwrites it before the
derivation step, so the claimed absence of partial mutation is false. -/
theorem c1_counterexample :
    (GenerateJoinAccept cmZero encId deriveFail 0 0 0 3 4 jrSample devSample).1 =
      Except.error Err.keyDerivationFailed ∧
    (GenerateJoinAccept cmZero encId deriveFail 0 0 0 3 4 jrSample devSample).2.addr ≠
      devSample.addr :=
  ⟨rfl, by decide⟩

/-- C1 (amended): if session-key derivation fails the join transaction aborts
with KeyDerivationFailed and the device's prior AppSKey is untouched, but its
devAddr has already been overwritten with the freshly generated address —
devAddr is committed at the start of the transaction, before the accept frame
is built; only the derived AppSKey is committed after the frame is built. -/
theorem c1_derive_failure_commits_addr_only :
    ∀ (cm enc : Key → List Nat → List Nat) (derive : DeriveOracle)
      (m1 m2 m3 n1 n2 : Fin 255) (jr : JoinRequest) (d : Device),
    (generateKeys derive { d with addr := generateDevAddr n1 n2 } jr.devNonce
        jr.joinEUI (generateJoinNonce m1 m2 m3) jr.devEUI netID = none →
      GenerateJoinAccept cm enc derive m1 m2 m3 n1 n2 jr d =
        (Except.error Err.keyDerivationFailed,
         { d with addr := generateDevAddr n1 n2 })) ∧
    ∀ k : Key,
      generateKeys derive { d with addr := generateDevAddr n1 n2 } jr.devNonce
          jr.joinEUI (generateJoinNonce m1 m2 m3) jr.devEUI netID = some k →
        (GenerateJoinAccept cm enc derive m1 m2 m3 n1 n2 jr d).2 =
          { d with addr := generateDevAddr n1 n2, appSKey := k } := by
  intro cm enc derive m1 m2 m3 n1 n2 jr d
  constructor
  · intro h
    simp [GenerateJoinAccept, h]
  · intro k h
    simp [GenerateJoinAccept, h]

/-- C1 (witness): the amended statement at concrete inputs — a failing oracle
leaves the prior AppSKey `[5, 5]` in place but commits the fresh address, and
a succeeding oracle commits the derived key. -/
theorem c1_witness :
    GenerateJoinAccept cmZero encId deriveFail 0 0 0 3 4 jrSample devSample =
      (Except.error Err.keyDerivationFailed,
       { devSample with addr := generateDevAddr 3 4 }) ∧
    (GenerateJoinAccept cmZero encId deriveConst 0 0 0 3 4 jrSample devSample).2 =
      { devSample with addr := generateDevAddr 3 4, appSKey := List.replicate 16 9 } :=
  ⟨(c1_derive_failure_commits_addr_only cmZero encId deriveFail 0 0 0 3 4
      jrSample devSample).1 rfl,
   (c1_derive_failure_commits_addr_only cmZero encId deriveConst 0 0 0 3 4
      jrSample devSample).2 (List.replicate 16 9) rfl⟩

/-- C2: parseJoinRequestPacket has no length check, so a 1-byte and a 22-byte
payload panic (Go slice out of range) instead of failing with MalformedFrame;
for a payload of at least 23 bytes the fixed-width fields joinEUI = bytes 1-8,
devEUI = bytes 9-16, devNonce = bytes 17-18 and MIC = bytes 19-22 are
extracted, shown here on the 23-byte payload whose byte i is i. -/
theorem c2_short_payload_panics :
    parseJoinRequestPacket cmZero [0] [] = ParseResult.panic ∧
    parseJoinRequestPacket cmZero (List.replicate 22 0) [] = ParseResult.panic ∧
    parseJoinRequestPacket cmTrail pr23 [devSample] =
      ParseResult.ok
        ⟨[1, 2, 3, 4, 5, 6, 7, 8], [9, 10, 11, 12, 13, 14, 15, 16], [17, 18],
         [19, 20, 21, 22]⟩ devSample :=
  ⟨by decide, by decide, by decide⟩

/-- C3: when a data-uplink decode fails, handlePacket lacks a return
statement, so updateReadings still runs; starting from an empty Readings
Store, an entry for the returned name is inserted — the store is not left
unchanged. -/
theorem c3_decode_failure_still_updates_store :
    ∀ (α : Type) (name : String) (readings : GoMap α) (e : Err),
      handleDataUplink name readings (some e) ([] : Store α) =
        some [(name, readings)] ∧
      ([(name, readings)] : Store α) ≠ [] := by
  intro α name readings e
  exact ⟨rfl, by simp⟩

/-- C5: on a successful join transaction the returned frame is the
unencrypted MHDR byte 0x20 followed by the encryption (under the AppKey) of
the plaintext after the MHDR — joinNonce (3B, little-endian), netID (3B,
little-endian), devAddr (4B, little-endian), DLSettings 0x00, RxDelay 0x01 —
with the MIC computed over the full plaintext including the MHDR appended
before encryption. -/
theorem c5_join_accept_frame_layout
    (cm enc : Key → List Nat → List Nat) (derive : DeriveOracle)
    (m1 m2 m3 n1 n2 : Fin 255) (jr : JoinRequest) (d : Device) (k : Key)
    (h : generateKeys derive { d with addr := generateDevAddr n1 n2 }
        jr.devNonce jr.joinEUI (generateJoinNonce m1 m2 m3) jr.devEUI netID =
        some k) :
    (GenerateJoinAccept cm enc derive m1 m2 m3 n1 n2 jr d).1 =
      Except.ok (0x20 ::
        enc d.AppKey
          ((reverseByteArray (generateJoinNonce m1 m2 m3) ++
            reverseByteArray netID ++
            reverseByteArray (generateDevAddr n1 n2) ++ [0x00, 0x01]) ++
           cm d.AppKey
            (0x20 :: (reverseByteArray (generateJoinNonce m1 m2 m3) ++
              reverseByteArray netID ++
              reverseByteArray (generateDevAddr n1 n2) ++ [0x00, 0x01])))) := by
  simp [GenerateJoinAccept, h]

/-- C5 (witness): the frame layout at concrete inputs, with the hypothesis
discharged by evaluation of the constant derivation oracle. -/
theorem c5_join_accept_frame_witness :
    (GenerateJoinAccept cmTrail encId deriveConst 1 2 3 3 4 jrSample
        devSample).1 =
      Except.ok (0x20 ::
        encId devSample.AppKey
          ((reverseByteArray (generateJoinNonce 1 2 3) ++
            reverseByteArray netID ++
            reverseByteArray (generateDevAddr 3 4) ++ [0x00, 0x01]) ++
           cmTrail devSample.AppKey
            (0x20 :: (reverseByteArray (generateJoinNonce 1 2 3) ++
              reverseByteArray netID ++
              reverseByteArray (generateDevAddr 3 4) ++ [0x00, 0x01])))) :=
  c5_join_accept_frame_layout cmTrail encId deriveConst 1 2 3 3 4 jrSample
    devSample (List.replicate 16 9) rfl

/-- C6: Config.Validate returns inside the first loop iteration in every
branch, so only the first device of the list is validated: a configuration
whose second device has an empty decoder path (rejected when it is the only
device) is accepted. -/
theorem c6_validate_checks_first_device_only :
    Config.Validate ⟨[cfgOk, cfgBad]⟩ = none ∧
    Config.Validate ⟨[cfgBad]⟩ = some ConfigErr.decoderRequired ∧
    Config.Validate ⟨[cfgOk]⟩ = none :=
  ⟨by decide, by decide, by decide⟩

/-- C4 (counterexample): on a 24-byte all-zero payload, the MIC computed over
bytes [0:19) equals bytes [19:23) exactly, yet validateMIC fails — it
compares the computed MIC with the whole suffix payload[19:], which here has
five bytes.  So for payloads of at least 23 bytes, success is not equivalent
to the computed MIC matching bytes [19:23). -/
theorem c4_counterexample :
    validateMIC cmZero keyZ pz24 = MICResult.invalidMIC ∧
    goSlice pz24 19 23 = some (cmZero keyZ (pz24.take 19)) :=
  ⟨by decide, by decide⟩

/-- C4 (amended): MIC validation computes the join-request MIC over bytes
[0:19) with the AppKey and succeeds exactly when the computed MIC equals the
entire suffix payload[19:]; for a payload of exactly 23 bytes this coincides
with bytes [19:23) as the claim states; on mismatch parseJoinRequestPacket
returns the InvalidMIC error and the transaction does not proceed. -/
theorem c4_mic_validation_amended :
    (∀ (cm : Key → List Nat → List Nat) (key : Key) (payload : List Nat),
      19 ≤ payload.length →
        (validateMIC cm key payload = MICResult.valid ↔
          payload.drop 19 = cm key (payload.take 19))) ∧
    (∀ (cm : Key → List Nat → List Nat) (key : Key) (payload : List Nat),
      payload.length = 23 →
        (validateMIC cm key payload = MICResult.valid ↔
          goSlice payload 19 23 = some (cm key (payload.take 19)))) ∧
    (∀ (cm : Key → List Nat → List Nat) (payload : List Nat)
       (devices : List Device),
      23 ≤ payload.length →
      (findDevice devices (reverseByteArray ((payload.drop 9).take 8))).name ≠ "" →
      validateMIC cm
          (findDevice devices
            (reverseByteArray ((payload.drop 9).take 8))).AppKey payload =
        MICResult.invalidMIC →
      parseJoinRequestPacket cm payload devices =
        ParseResult.err Err.invalidMIC) := by
  refine ⟨fun cm key payload hlen => validateMIC_valid_iff cm key payload hlen,
          fun cm key payload hlen => ?_, fun cm payload devices hlen hname hmic => ?_⟩
  · have hds : (payload.drop 19).take 4 = payload.drop 19 := by
      have h4 : (payload.drop 19).length = 4 := by simp [hlen]
      rw [← h4, List.take_length]
    rw [goSlice_sub payload 19 23 (by omega) (by omega)]
    rw [validateMIC_valid_iff cm key payload (by omega)]
    norm_num [hds]
  · have hp := parse_reduces cm payload devices hlen
    rw [if_neg hname, hmic] at hp
    exact hp

/-- C4 (witness): the amended statement at concrete inputs — the equivalence
on a 23-byte all-zero payload, and a mismatching MIC oracle making the parse
fail with InvalidMIC for a matched device. -/
theorem c4_mic_validation_witness :
    (validateMIC cmZero keyZ pz23 = MICResult.valid ↔
      pz23.drop 19 = cmZero keyZ (pz23.take 19)) ∧
    (validateMIC cmZero keyZ pz23 = MICResult.valid ↔
      goSlice pz23 19 23 = some (cmZero keyZ (pz23.take 19))) ∧
    parseJoinRequestPacket cmBad pr23 [devSample] =
      ParseResult.err Err.invalidMIC :=
  ⟨c4_mic_validation_amended.1 cmZero keyZ pz23 (by decide),
   c4_mic_validation_amended.2.1 cmZero keyZ pz23 (by decide),
   c4_mic_validation_amended.2.2 cmBad pr23 [devSample] (by decide) (by decide)
     (by decide)⟩

/-- C7: a join request (at least 23 bytes, so the parse reaches the registry
scan) whose byte-reversed wire devEUI matches no configured device makes
parseJoinRequestPacket, and with it handleJoin, return the unknown-device
error, and the gateway state — device registry, session state and readings
store — is returned exactly as it was. -/
theorem c7_unknown_device_join_nonfatal {α : Type}
    (cm cja enc : Key → List Nat → List Nat) (derive : DeriveOracle)
    (m1 m2 m3 n1 n2 : Fin 255) (sendOk : Bool) (payload : List Nat)
    (st : GwState α) (hlen : 23 ≤ payload.length)
    (hno : ∀ d ∈ st.devices,
      d.devEui ≠ reverseByteArray ((payload.drop 9).take 8)) :
    parseJoinRequestPacket cm payload st.devices =
      ParseResult.err Err.unknownDevice ∧
    handleJoin cm cja enc derive m1 m2 m3 n1 n2 sendOk payload st =
      JoinOutcome.err Err.unknownDevice st := by
  have hp := parse_reduces cm payload st.devices hlen
  rw [findDevice_eq_empty _ _ hno] at hp
  rw [if_pos (show emptyDevice.name = "" from rfl)] at hp
  exact ⟨hp, by unfold handleJoin; rw [hp]⟩

/-- C7 (witness): the unknown-device outcome at concrete inputs — a registry
with one device whose devEui does not match the reversed wire devEUI of the
23-byte payload. -/
theorem c7_unknown_device_witness :
    parseJoinRequestPacket cmZero pr23
      [{ devSample with devEui := [0, 1] }] =
      ParseResult.err Err.unknownDevice ∧
    handleJoin cmZero cmZero encId deriveFail 0 0 0 3 4 true pr23
      ⟨[{ devSample with devEui := [0, 1] }], ([] : Store Nat)⟩ =
      JoinOutcome.err Err.unknownDevice
        ⟨[{ devSample with devEui := [0, 1] }], ([] : Store Nat)⟩ :=
  c7_unknown_device_join_nonfatal cmZero cmZero encId deriveFail 0 0 0 3 4
    true pr23 ⟨[{ devSample with devEui := [0, 1] }], ([] : Store Nat)⟩
    (by decide) (by decide)

/-- C8: merging readings inserts the mapping when the device name is absent
from the store, and otherwise merges key-by-key into the existing mapping,
overwriting on key collision; in particular merging a:1 then b:2 into an
empty entry yields a:1, b:2, merging a:1 twice yields a:1, and merging a:2
after a:1 yields a:2. -/
theorem c8_readings_merge :
    (∀ (α : Type) (name : String) (new : GoMap α) (store : Store α),
      lookupA store name = none →
        updateReadings name new store = some (setA store name new)) ∧
    (∀ (α : Type) (name : String) (newList mp : List (String × α))
       (store : Store α),
      lookupA store name = some (some mp) →
        updateReadings name (some newList) store =
          some (setA store name (some (mergeGo mp newList)))) ∧
    (∀ (α : Type) (mp : List (String × α)) (k : String) (v : α),
      lookupA (mergeGo mp [(k, v)]) k = some v) ∧
    (∀ (α : Type) (mp : List (String × α)) (k k2 : String) (v : α), k2 ≠ k →
      lookupA (mergeGo mp [(k, v)]) k2 = lookupA mp k2) ∧
    updateReadings "d" (some [("a", 1)]) ([] : Store Nat) =
      some [("d", some [("a", 1)])] ∧
    updateReadings "d" (some [("b", 2)]) [("d", some [("a", 1)])] =
      some [("d", some [("a", 1), ("b", 2)])] ∧
    updateReadings "d" (some [("a", 1)]) [("d", some [("a", 1)])] =
      some [("d", some [("a", 1)])] ∧
    updateReadings "d" (some [("a", 2)]) [("d", some [("a", 1)])] =
      some [("d", some [("a", 2)])] := by
  refine ⟨?_, ?_, ?_, ?_, by decide, by decide, by decide, by decide⟩
  · intro α name new store h
    unfold updateReadings
    rw [h]
  · intro α name newList mp store h
    unfold updateReadings
    rw [h]
  · intro α mp k v
    exact lookupA_setA_self mp k v
  · intro α mp k k2 v h
    exact lookupA_setA_ne mp k k2 v h

/-- C8 (witness): the general merge clauses at concrete inputs — inserting
into an empty store, merging a second key into an existing entry, and the
per-key overwrite and preservation reads. -/
theorem c8_readings_merge_witness :
    updateReadings "x" (none : GoMap Nat) [] = some [("x", none)] ∧
    updateReadings "d" (some [("b", 2)]) [("d", some [("a", 1)])] =
      some [("d", some (mergeGo [("a", 1)] [("b", 2)]))] ∧
    lookupA (mergeGo [("a", 1)] [("a", 2)]) "a" = some 2 ∧
    lookupA (mergeGo [("a", 1)] [("b", 2)]) "a" = lookupA [("a", 1)] "a" :=
  ⟨c8_readings_merge.1 Nat "x" none [] rfl,
   c8_readings_merge.2.1 Nat "d" [("b", 2)] [("a", 1)]
     [("d", some [("a", 1)])] rfl,
   c8_readings_merge.2.2.1 Nat [("a", 1)] "a" 2,
   c8_readings_merge.2.2.2.1 Nat [("a", 1)] "b" "a" 2 (by decide)⟩

/-- C9 (counterexample): the bottom bytes of the generated device address are
not uniform over the full byte range — the draws are rand.Intn(255), so the
byte value 255 is never produced at index 3 (nor at index 2). -/
theorem c9_full_byte_range_counterexample :
    ¬ ∀ b : Fin 256, ∃ n1 n2 : Fin 255,
      (generateDevAddr n1 n2).getD 3 0 = b.val := by
  intro h
  obtain ⟨n1, n2, hn⟩ := h 255
  have h2 : n2.val < 255 := n2.isLt
  simp [generateDevAddr, Nat.mod_eq_of_lt h2] at hn
  omega

/-- C9 (amended): the generated device address is exactly 4 bytes, its top
two bytes the fixed network-id prefix 1, 2, and its bottom two bytes each
uniformly random over 0..254 (every such value is attainable; 255 never is,
since rand.Intn(255) excludes its bound); the join nonce is 3 random bytes,
each in 0..254; and the address committed to the device by a join transaction
is the freshly generated one. -/
theorem c9_devaddr_and_nonce_amended :
    (∀ n1 n2 : Fin 255,
      generateDevAddr n1 n2 = [1, 2, n1.val, n2.val] ∧
      (generateDevAddr n1 n2).length = 4 ∧ n1.val < 255 ∧ n2.val < 255) ∧
    (∀ v : Fin 255, ∃ n1 n2 : Fin 255,
      generateDevAddr n1 n2 = [1, 2, v.val, v.val]) ∧
    (∀ m1 m2 m3 : Fin 255,
      generateJoinNonce m1 m2 m3 = [m1.val, m2.val, m3.val] ∧
      (generateJoinNonce m1 m2 m3).length = 3) ∧
    (∀ (cm enc : Key → List Nat → List Nat) (derive : DeriveOracle)
       (m1 m2 m3 n1 n2 : Fin 255) (jr : JoinRequest) (d : Device),
      (GenerateJoinAccept cm enc derive m1 m2 m3 n1 n2 jr d).2.addr =
        generateDevAddr n1 n2) := by
  refine ⟨fun n1 n2 => ?_, fun v => ⟨v, v, ?_⟩, fun m1 m2 m3 => ?_,
          fun cm enc derive m1 m2 m3 n1 n2 jr d => ?_⟩
  · have e1 : n1.val % 256 = n1.val := Nat.mod_eq_of_lt (Nat.lt_trans n1.isLt (by omega))
    have e2 : n2.val % 256 = n2.val := Nat.mod_eq_of_lt (Nat.lt_trans n2.isLt (by omega))
    exact ⟨by simp [generateDevAddr, e1, e2], by simp [generateDevAddr],
           n1.isLt, n2.isLt⟩
  · have e : v.val % 256 = v.val := Nat.mod_eq_of_lt (Nat.lt_trans v.isLt (by omega))
    simp [generateDevAddr, e]
  · have e1 : m1.val % 256 = m1.val := Nat.mod_eq_of_lt (Nat.lt_trans m1.isLt (by omega))
    have e2 : m2.val % 256 = m2.val := Nat.mod_eq_of_lt (Nat.lt_trans m2.isLt (by omega))
    have e3 : m3.val % 256 = m3.val := Nat.mod_eq_of_lt (Nat.lt_trans m3.isLt (by omega))
    exact ⟨by simp [generateJoinNonce, e1, e2, e3], by simp [generateJoinNonce]⟩
  · rcases hgk : generateKeys derive { d with addr := generateDevAddr n1 n2 }
        jr.devNonce jr.joinEUI (generateJoinNonce m1 m2 m3) jr.devEUI netID
      with _ | k <;> simp [GenerateJoinAccept, hgk]

/-- C10: every payload the poll loop hands to dispatch is non-empty — size-0
packets are skipped, otherwise one byte is appended per reported size byte —
so the MHDR read of byte 0 in the dispatcher is in bounds and sees the first
packet byte. -/
theorem c10_dispatched_payload_nonempty (size : Nat) (pl : Nat → Nat)
    (payload : List Nat) (h : deliveredPayload size pl = some payload) :
    payload.length = size ∧ payload ≠ [] ∧ mhdrOf payload = some (pl 0) := by
  unfold deliveredPayload at h
  by_cases h0 : size = 0
  · simp [h0] at h
  · by_cases h256 : size ≤ 256
    · rw [if_neg h0, if_pos h256] at h
      obtain ⟨size2, rfl⟩ := Nat.exists_eq_succ_of_ne_zero h0
      rw [List.range_succ_eq_map] at h
      obtain rfl : (0 :: List.map Nat.succ (List.range size2)).map pl = payload :=
        Option.some.inj h
      refine ⟨by simp, by simp, ?_⟩
      simp [mhdrOf]
    · rw [if_neg h0, if_neg h256] at h
      exact absurd h (by simp)

/-- C10 (witness): a delivered packet of reported size 3 whose bytes are the
identity function — length 3, non-empty, MHDR read in bounds. -/
theorem c10_dispatched_payload_witness :
    ([0, 1, 2] : List Nat).length = 3 ∧ ([0, 1, 2] : List Nat) ≠ [] ∧
    mhdrOf [0, 1, 2] = some 0 :=
  c10_dispatched_payload_nonempty 3 (fun i => i) [0, 1, 2] (by decide)

end Gateway
